import Mathlib

set_option maxRecDepth 100000

/-!
Verification of the external-renderer invocation and caching layer of
markdown_obsidian_katex (src/wrapper.py) against its specification.

The Python module is shallowly embedded: pure helpers become Lean functions,
filesystem and subprocess effects become explicit state passing over a listing
of the shared temp directory plus oracles for the external world (the spawned
renderer, unlink failures, the executable search path).  Machine integers are
Nat/Int; bytes are Nat values below 256; hashlib.sha256 is modelled by a full
executable SHA-256 implementation checked against the FIPS 180 test vectors.
-/

/-! ## Bytes and UTF-8 (str.encode("utf-8")) -/

/-- UTF-8 encoding of a single code point (as a list of byte values). -/
def utf8Char (n : Nat) : List Nat :=
  if n < 128 then [n]
  else if n < 2048 then [192 + n / 64, 128 + n % 64]
  else if n < 65536 then [224 + n / 4096, 128 + n / 64 % 64, 128 + n % 64]
  else [240 + n / 262144, 128 + n / 4096 % 64, 128 + n / 64 % 64, 128 + n % 64]

/-- UTF-8 encoding of a string, modelling Python str.encode("utf-8"). -/
def utf8Str (s : String) : List Nat := s.data.flatMap (fun c => utf8Char c.toNat)

/-! ## SHA-256 (models hashlib.sha256)

A direct executable implementation over Nat with explicit reduction mod 2^32.
-/

/-- Truncate to a 32-bit word. -/
def w32 (n : Nat) : Nat := n % 4294967296

/-- Right rotation of a 32-bit word (input assumed below 2^32). -/
def rotr32 (x n : Nat) : Nat := x / 2 ^ n + x % 2 ^ n * 2 ^ (32 - n)

/-- Bitwise complement of a 32-bit word. -/
def bnot32 (x : Nat) : Nat := 4294967295 - x

def ch32 (e f g : Nat) : Nat := (e &&& f) ^^^ (bnot32 e &&& g)

def maj32 (a b c : Nat) : Nat := (a &&& b) ^^^ (a &&& c) ^^^ (b &&& c)

def bsig0 (x : Nat) : Nat := rotr32 x 2 ^^^ rotr32 x 13 ^^^ rotr32 x 22

def bsig1 (x : Nat) : Nat := rotr32 x 6 ^^^ rotr32 x 11 ^^^ rotr32 x 25

def ssig0 (x : Nat) : Nat := rotr32 x 7 ^^^ rotr32 x 18 ^^^ (x >>> 3)

def ssig1 (x : Nat) : Nat := rotr32 x 17 ^^^ rotr32 x 19 ^^^ (x >>> 10)

/-- The 64 SHA-256 round constants. -/
def K256 : List Nat :=
  [1116352408, 1899447441, 3049323471, 3921009573,
   961987163, 1508970993, 2453635748, 2870763221,
   3624381080, 310598401, 607225278, 1426881987,
   1925078388, 2162078206, 2614888103, 3248222580,
   3835390401, 4022224774, 264347078, 604807628,
   770255983, 1249150122, 1555081692, 1996064986,
   2554220882, 2821834349, 2952996808, 3210313671,
   3336571891, 3584528711, 113926993, 338241895,
   666307205, 773529912, 1294757372, 1396182291,
   1695183700, 1986661051, 2177026350, 2456956037,
   2730485921, 2820302411, 3259730800, 3345764771,
   3516065817, 3600352804, 4094571909, 275423344,
   430227734, 506948616, 659060556, 883997877,
   958139571, 1322822218, 1537002063, 1747873779,
   1955562222, 2024104815, 2227730452, 2361852424,
   2428436474, 2756734187, 3204031479, 3329325298]

/-- Big-endian 8-byte encoding of a length (in bits). -/
def be64 (n : Nat) : List Nat :=
  [n / 2 ^ 56 % 256, n / 2 ^ 48 % 256, n / 2 ^ 40 % 256, n / 2 ^ 32 % 256,
   n / 2 ^ 24 % 256, n / 2 ^ 16 % 256, n / 2 ^ 8 % 256, n % 256]

/-- SHA-256 message padding: 0x80, zeros to 56 mod 64, then the bit length. -/
def sha256Pad (msg : List Nat) : List Nat :=
  msg ++ 128 :: List.replicate ((119 - msg.length % 64) % 64) 0 ++ be64 (8 * msg.length)

/-- Pack bytes into big-endian 32-bit words. -/
def bytesToWords : List Nat → List Nat
  | b0 :: b1 :: b2 :: b3 :: rest =>
      (b0 * 16777216 + b1 * 65536 + b2 * 256 + b3) :: bytesToWords rest
  | _ => []

/-- One step of the SHA-256 message-schedule extension. -/
def extendOnce (ws : List Nat) : List Nat :=
  let n := ws.length
  ws ++ [w32 (ssig1 (ws.getD (n - 2) 0) + ws.getD (n - 7) 0 +
              ssig0 (ws.getD (n - 15) 0) + ws.getD (n - 16) 0)]

def extendMany : Nat → List Nat → List Nat
  | 0, ws => ws
  | k + 1, ws => extendMany k (extendOnce ws)

/-- The 64-word message schedule of one block (given as 16 words). -/
def sha256Schedule (block : List Nat) : List Nat := extendMany 48 block

/-- The eight 32-bit working variables of the compression function. -/
structure Hash8 where
  a : Nat
  b : Nat
  c : Nat
  d : Nat
  e : Nat
  f : Nat
  g : Nat
  h : Nat
deriving DecidableEq, Repr

/-- One round of the SHA-256 compression function. -/
def compressStep (s : Hash8) (kw : Nat × Nat) : Hash8 :=
  let t1 := w32 (s.h + bsig1 s.e + ch32 s.e s.f s.g + kw.1 + kw.2)
  let t2 := w32 (bsig0 s.a + maj32 s.a s.b s.c)
  ⟨w32 (t1 + t2), s.a, s.b, s.c, w32 (s.d + t1), s.e, s.f, s.g⟩

/-- Compress one 16-word block into the running hash value. -/
def sha256Block (hv : Hash8) (block : List Nat) : Hash8 :=
  let s := (K256.zip (sha256Schedule block)).foldl compressStep hv
  ⟨w32 (hv.a + s.a), w32 (hv.b + s.b), w32 (hv.c + s.c), w32 (hv.d + s.d),
   w32 (hv.e + s.e), w32 (hv.f + s.f), w32 (hv.g + s.g), w32 (hv.h + s.h)⟩

/-- The SHA-256 initial hash value. -/
def sha256H0 : Hash8 :=
  ⟨1779033703, 3144134277, 1013904242, 2773480762,
   1359893119, 2600822924, 528734635, 1541459225⟩

/-- Fold the compression function over the given number of 16-word blocks. -/
def sha256Fold (hv : Hash8) (words : List Nat) : Nat → Hash8
  | 0 => hv
  | n + 1 => sha256Fold (sha256Block hv (words.take 16)) (words.drop 16) n

/-- The eight word values of the SHA-256 digest of a byte string. -/
def sha256Words (msg : List Nat) : List Nat :=
  let ws := bytesToWords (sha256Pad msg)
  let fin := sha256Fold sha256H0 ws (ws.length / 16)
  [fin.a, fin.b, fin.c, fin.d, fin.e, fin.f, fin.g, fin.h]

/-- Lowercase hex digit characters, as hexdigest() prints them. -/
def hexChar : Nat → Char
  | 0 => '0' | 1 => '1' | 2 => '2' | 3 => '3' | 4 => '4' | 5 => '5'
  | 6 => '6' | 7 => '7' | 8 => '8' | 9 => '9' | 10 => 'a' | 11 => 'b'
  | 12 => 'c' | 13 => 'd' | 14 => 'e' | 15 => 'f' | _ => 'x'

/-- The eight hex digits of one 32-bit word, most significant first. -/
def hex8chars (n : Nat) : List Char :=
  (List.range 8).map (fun i => hexChar (n / 16 ^ (7 - i) % 16))

/-- Hex-encoded SHA-256 digest of a byte string: hashlib hexdigest(). -/
def sha256hex (msg : List Nat) : String :=
  String.mk ((sha256Words msg).flatMap hex8chars)

example : sha256hex (utf8Str "abc") =
    "ba7816bf8f01cfea414140de5dae2223b00361a396177a9cb410ff61f20015ad" := by decide

example : sha256hex (utf8Str "") =
    "e3b0c44298fc1c149afbf4c8996fb92427ae41e4649b934ca495991b7852b855" := by decide

example : sha256hex (utf8Str "abcdbcdecdefdefgefghfghighijhijkijkljklmklmnlmnomnopnopq") =
    "248d6a61d20638b8e5c026930c3e6039a33ce45964ff2167f6ecedd419db06c1" := by decide

/-! ## Python string helpers used by wrapper.py -/

/-- Whitespace characters recognised by str.strip(). -/
def pyIsSpace (c : Char) : Bool :=
  c = ' ' || c = '\n' || c = '\t' || c = '\r' || Char.ofNat 11 = c || Char.ofNat 12 = c

def dropSpaceLeft : List Char → List Char
  | [] => []
  | c :: r => if pyIsSpace c then dropSpaceLeft r else c :: r

/-- Python str.strip(): remove leading and trailing whitespace. -/
def pyStrip (s : String) : String :=
  String.mk ((dropSpaceLeft (dropSpaceLeft s.data.reverse).reverse).reverse.reverse)

/-- Split a character list on a separator character, keeping empty groups,
modelling str.split(sep) with a one-character separator. -/
def splitOnChar (sep : Char) : List Char → List (List Char)
  | [] => [[]]
  | c :: r =>
    if c = sep then [] :: splitOnChar sep r
    else
      match splitOnChar sep r with
      | [] => [[c]]
      | g :: gs => (c :: g) :: gs

/-- Python "s".split("\n"). -/
def pySplitNl (s : String) : List String := (splitOnChar '\n' s.data).map String.mk

/-- Python str.split() with no argument, for space-separated command strings:
split on spaces and drop empty tokens. -/
def pySplitWs (s : String) : List String :=
  ((splitOnChar ' ' s.data).filter (fun w => !w.isEmpty)).map String.mk

/-- Python name.replace(".html", ".tex"): replace every (non-overlapping)
occurrence left to right. -/
def texifyName : List Char → List Char
  | '.' :: 'h' :: 't' :: 'm' :: 'l' :: rest => '.' :: 't' :: 'e' :: 'x' :: texifyName rest
  | c :: rest => c :: texifyName rest
  | [] => []

def pyReplaceHtmlTex (s : String) : String := String.mk (texifyName s.data)

/-- Python s.startswith("--"). -/
def leadsWithDashDash (s : String) : Bool :=
  match s.data with
  | '-' :: '-' :: _ => true
  | _ => false

/-- The single-quote character, used in the KatexError message format. -/
def squote : String := String.mk [Char.ofNat 39]

/-- Substring containment, on the underlying character lists. -/
def containsStr (s sub : String) : Prop :=
  ∃ x y, s.data = x ++ sub.data ++ y

/-! ## Option values and the argument vector (_iter_cmd_parts)

ArgValue models the Python annotation ArgValue = Union[str, int, float, bool];
a float is carried as its str() rendering, which is all wrapper.py ever uses
of it.
-/

inductive ArgValue where
  | str (s : String)
  | int (i : Int)
  | float (rep : String)
  | bool (b : Bool)
deriving DecidableEq, Repr

/-- Python str(option_value) for the non-boolean branch of _iter_cmd_parts
(booleans never reach it; their rendering is included for totality). -/
def strArgValue : ArgValue → String
  | .str s => s
  | .int i => toString i
  | .float rep => rep
  | .bool b => if b then "True" else "False"

/-- The tokens one option contributes: lines 146-158 of wrapper.py.
The name gains a "--" unless it already starts with one; value True yields
the bare flag, False yields nothing, anything else yields name then str(value). -/
def optLoop : List (String × ArgValue) → List String
  | [] => []
  | (option_name, option_value) :: rest =>
    let arg_name := if leadsWithDashDash option_name then option_name
                    else "--" ++ option_name
    (if option_value = ArgValue.bool true then [arg_name]
     else if option_value = ArgValue.bool false then []
     else [arg_name, strArgValue option_value]) ++ optLoop rest

/-- Translation of _iter_cmd_parts (wrapper.py lines 142-158): the resolved invocation
tokens from get_bin_cmd(), then the option tokens.  The resolved binary
command is passed in explicitly (binCmd abstracts get_bin_cmd()); `if options:`
makes an empty or absent map contribute nothing. -/
def iterCmdParts (binCmd : List String) (options : List (String × ArgValue)) : List String :=
  binCmd ++ (if options.isEmpty then [] else optLoop options)

/-! ## The digest (_cmd_digest) -/

/-- The incremental hashlib.sha256 object: its state is the byte string
absorbed so far (streaming updates hash the concatenation). -/
structure Sha256Hasher where
  absorbed : List Nat
deriving DecidableEq, Repr

def Sha256Hasher.update (h : Sha256Hasher) (bs : List Nat) : Sha256Hasher :=
  ⟨h.absorbed ++ bs⟩

def Sha256Hasher.hexdigest (h : Sha256Hasher) : String := sha256hex h.absorbed

/-- Translation of _cmd_digest (wrapper.py lines 161-165): seed the hasher with the tex
source, update with every command token in order, return the hex digest. -/
def cmdDigest (tex : String) (cmd_parts : List String) : String :=
  (cmd_parts.foldl (fun (h : Sha256Hasher) p => h.update (utf8Str p))
    (Sha256Hasher.mk (utf8Str tex))).hexdigest

/-- The byte string that _cmd_digest feeds to SHA-256. -/
def hashInput (tex : String) (cmd_parts : List String) : List Nat :=
  utf8Str tex ++ (cmd_parts.map utf8Str).flatten

/-! ## Filesystem state and oracles -/

/-- One entry of the shared temp directory: a regular file with its content
and modification time, or a subdirectory. -/
inductive Entry where
  | file (content : String) (mtime : Int)
  | dir
deriving DecidableEq, Repr

/-- The listing of TMP_DIR, in iteration order: names paired with entries. -/
abbrev Dir := List (String × Entry)

/-- Errors raised by the embedded code. -/
inductive Err where
  | katex (msg : String)
  | osErr (msg : String)
  | keyError
deriving DecidableEq, Repr

/-- What a spawned renderer process did: its exit status, captured streams,
and the content it wrote to the file named by --output, if any. -/
structure ProcResult where
  retcode : Int
  stdout : String
  stderr : String
  written : Option String
deriving DecidableEq, Repr

/-- The ambient world of one render call: the resolved binary command
(abstracting get_bin_cmd()), the renderer behaviour per argument vector
(none models an OSError from Popen, a launch failure), and which unlink
calls fail with an OSError. -/
structure Env where
  binCmd : List String
  runProc : List String → Option ProcResult
  unlinkFails : String → Bool

/-- Mutable state of a render call: the TMP_DIR listing and the current
time in whole seconds (time.time(), also used for fresh mtimes). -/
structure WState where
  tmpDir : Dir
  now : Int
deriving DecidableEq, Repr

/-- Value of str(TMP_DIR): tempfile.gettempdir() modelled as "/tmp". -/
def TMP_DIR_STR : String := "/tmp/mdkatex"

def pathIn (name : String) : String := TMP_DIR_STR ++ "/" ++ name

/-- Look a name up in a directory listing (first match). -/
def dlookup (n : String) : Dir → Option Entry
  | [] => none
  | (k, v) :: r => if n = k then some v else dlookup n r

/-- Replace every entry bearing the given name. -/
def mapReplace : Dir → String → Entry → Dir
  | [], _, _ => []
  | (k, v) :: r, name, e =>
    if k = name then (name, e) :: mapReplace r name e
    else (k, v) :: mapReplace r name e

/-- Write or overwrite an entry, keeping its position if the name exists
and appending otherwise. -/
def dirSet (d : Dir) (name : String) (e : Entry) : Dir :=
  if (dlookup name d).isSome then mapReplace d name e
  else d ++ [(name, e)]

/-- Python open(name, "wb") followed by write: fails on a directory, else writes. -/
def writeFileM (st : WState) (name content : String) : Except Err WState :=
  match dlookup name st.tmpDir with
  | some Entry.dir => Except.error (Err.osErr "IsADirectoryError")
  | _ => Except.ok { st with tmpDir := dirSet st.tmpDir name (Entry.file content st.now) }

/-- Python Path.touch(): refresh the mtime of a file (creating an empty one if
absent); fails on a directory. -/
def touchM (st : WState) (name : String) : Except Err WState :=
  match dlookup name st.tmpDir with
  | some (Entry.file c _) =>
      Except.ok { st with tmpDir := dirSet st.tmpDir name (Entry.file c st.now) }
  | some Entry.dir => Except.error (Err.osErr "IsADirectoryError")
  | none => Except.ok { st with tmpDir := dirSet st.tmpDir name (Entry.file "" st.now) }

/-- Python open(name, "r") followed by read. -/
def readFileM (st : WState) (name : String) : Except Err String :=
  match dlookup name st.tmpDir with
  | some (Entry.file c _) => Except.ok c
  | some Entry.dir => Except.error (Err.osErr "IsADirectoryError")
  | none => Except.error (Err.osErr "FileNotFoundError")

/-- Python Path.unlink(): fails when the oracle says so or the file is absent. -/
def unlinkM (env : Env) (st : WState) (name : String) : Except Err WState :=
  if env.unlinkFails name then Except.error (Err.osErr "unlink failed")
  else match dlookup name st.tmpDir with
    | some _ => Except.ok { st with tmpDir := st.tmpDir.filter (fun p => p.1 != name) }
    | none => Except.error (Err.osErr "FileNotFoundError")

/-! ## CacheJanitor (_cleanup_tmp_dir, wrapper.py lines 219-225)

Iterates over TMP_DIR, and unlinks every regular file whose mtime is below
time.time() - 24*60*60.  There is no exception handler: a failing unlink
aborts the loop and propagates; files removed before the failure stay removed.
-/

def cleanupGo (fails : String → Bool) (minMtime : Int) : Dir → Dir × Option Err
  | [] => ([], none)
  | (n, Entry.dir) :: rest =>
      let r := cleanupGo fails minMtime rest
      ((n, Entry.dir) :: r.1, r.2)
  | (n, Entry.file c t) :: rest =>
      if t < minMtime then
        if fails n then ((n, Entry.file c t) :: rest, some (Err.osErr "unlink failed"))
        else cleanupGo fails minMtime rest
      else
        let r := cleanupGo fails minMtime rest
        ((n, Entry.file c t) :: r.1, r.2)

def cleanupTmpDir (env : Env) (st : WState) : WState × Option Err :=
  let r := cleanupGo env.unlinkFails (st.now - 24 * 60 * 60) st.tmpDir
  ({ st with tmpDir := r.1 }, r.2)

/-! ## Signal names (SIG_NAME_BY_NUM, wrapper.py lines 31-33) -/

/-- Modelled from the spec: the platform signal name table (the contents of
the Python signal module) is not part of the repository; this is the standard
Linux/POSIX table of SIG* names with their numbers, plus the non-signal
module attribute NSIG to exercise the filter. -/
def signalItems : List (String × Int) :=
  [("SIGHUP", 1), ("SIGINT", 2), ("SIGQUIT", 3), ("SIGILL", 4), ("SIGTRAP", 5),
   ("SIGABRT", 6), ("SIGIOT", 6), ("SIGBUS", 7), ("SIGFPE", 8), ("SIGKILL", 9),
   ("SIGUSR1", 10), ("SIGSEGV", 11), ("SIGUSR2", 12), ("SIGPIPE", 13),
   ("SIGALRM", 14), ("SIGTERM", 15), ("SIGSTKFLT", 16), ("SIGCHLD", 17),
   ("SIGCLD", 17), ("SIGCONT", 18), ("SIGSTOP", 19), ("SIGTSTP", 20),
   ("SIGTTIN", 21), ("SIGTTOU", 22), ("SIGURG", 23), ("SIGXCPU", 24),
   ("SIGXFSZ", 25), ("SIGVTALRM", 26), ("SIGPROF", 27), ("SIGWINCH", 28),
   ("SIGIO", 29), ("SIGPOLL", 29), ("SIGPWR", 30), ("SIGSYS", 31),
   ("SIGRTMIN", 34), ("SIGRTMAX", 64), ("NSIG", 65)]

/-- Python v.startswith("SIG"). -/
def leadsWithSIG (s : String) : Bool :=
  match s.data with
  | 'S' :: 'I' :: 'G' :: _ => true
  | _ => false

/-- Python v.startswith("SIG_"). -/
def leadsWithSIGunderscore (s : String) : Bool :=
  match s.data with
  | 'S' :: 'I' :: 'G' :: '_' :: _ => true
  | _ => false

/-- Lexicographic comparison of character lists by code point, as Python
compares strings. -/
def charListLt : List Char → List Char → Bool
  | [], [] => false
  | [], _ :: _ => true
  | _ :: _, [] => false
  | a :: as, b :: bs =>
    if a.toNat < b.toNat then true
    else if b.toNat < a.toNat then false
    else charListLt as bs

def strLtB (a b : String) : Bool := charListLt a.data b.data

/-- Descending comparison on (name, value) pairs: sorted(..., reverse=True). -/
def pairDescLe (a b : String × Int) : Bool :=
  if a.1 = b.1 then decide (b.2 ≤ a.2) else strLtB b.1 a.1

def insertDesc (x : String × Int) : List (String × Int) → List (String × Int)
  | [] => [x]
  | y :: r => if pairDescLe x y then x :: y :: r else y :: insertDesc x r

def sortDesc : List (String × Int) → List (String × Int)
  | [] => []
  | x :: r => insertDesc x (sortDesc r)

/-- Python dict assignment d[k] = v: overwrite in place or append. -/
def pyDictInsert (m : List (Int × String)) (k : Int) (v : String) : List (Int × String) :=
  if (List.lookup k m).isSome then m.map (fun p => if p.1 = k then (k, v) else p)
  else m ++ [(k, v)]

/-- Translation of SIG_NAME_BY_NUM (wrapper.py lines 31-32): iterate the module items sorted
in reverse, keep names starting with "SIG" but not "SIG_", and map each number
to its name; later (lexicographically smaller) names overwrite earlier ones. -/
def SIG_NAME_BY_NUM : List (Int × String) :=
  (sortDesc signalItems).foldl
    (fun m p =>
      if leadsWithSIG p.1 && !leadsWithSIGunderscore p.1 then pyDictInsert m p.2 p.1
      else m)
    []

example : List.lookup 15 SIG_NAME_BY_NUM = some "SIGTERM" := by decide

/-! ## ProcessExecutor and the cache-miss path (_write_tex2html, lines 168-198)

The body writes the tex source to a sibling .tex input file, extends the
argument vector with --input and --output paths, spawns the renderer, and
classifies the exit status.  The final tmp_input_file.unlink() sits after the
try/finally block, so it only runs when no exception was raised.  The spawned
process itself may write the --output file; that effect is applied from the
oracle before the status check.  The returned Nat counts renderer spawns.
-/

def writeTex2Html (env : Env) (st : WState) (cmd_parts : List String) (tex : String)
    (outName : String) : Except Err Unit × WState × Nat :=
  let inName := pyReplaceHtmlTex outName
  match writeFileM st inName tex with
  | Except.error e => (Except.error e, st, 0)
  | Except.ok st1 =>
    match env.runProc (cmd_parts ++ ["--input", pathIn inName, "--output", pathIn outName]) with
    | none => (Except.error (Err.osErr "LaunchFailure"), st1, 1)
    | some r =>
      let st2 := match r.written with
                 | some c => { st1 with tmpDir := dirSet st1.tmpDir outName (Entry.file c st1.now) }
                 | none => st1
      if r.retcode < 0 then
        match List.lookup (Int.natAbs r.retcode : Int) SIG_NAME_BY_NUM with
        | some signame =>
            (Except.error (Err.katex ("Error processing " ++ squote ++ tex ++ squote ++ ": " ++
              "katex_cli process ended with " ++ "code " ++ toString r.retcode ++
              " (" ++ signame ++ ")")), st2, 1)
        | none => (Except.error Err.keyError, st2, 1)
      else if 0 < r.retcode then
        (Except.error (Err.katex ("Error processing " ++ squote ++ tex ++ squote ++ ": " ++
          pyStrip (r.stdout ++ "\n" ++ r.stderr))), st2, 1)
      else
        match unlinkM env st2 inName with
        | Except.ok st3 => (Except.ok (), st3, 1)
        | Except.error e => (Except.error e, st2, 1)

/-! ## RenderCache (tex2html, wrapper.py lines 201-216) -/

/-- The cache file name a render call uses: hex digest of (tex, argv) plus
the .html extension. -/
def cacheName (env : Env) (tex : String) (options : List (String × ArgValue)) : String :=
  cmdDigest tex (iterCmdParts env.binCmd options) ++ ".html"

/-- The try-block of tex2html: on a hit, touch then read the cache file; on a
miss, run the renderer then read the output file.  Returns the outcome, the
state, and the number of renderer spawns. -/
def tex2htmlBody (env : Env) (st : WState) (tex : String)
    (options : List (String × ArgValue)) : Except Err String × WState × Nat :=
  let cmd_parts := iterCmdParts env.binCmd options
  let tmp_filename := cmdDigest tex cmd_parts ++ ".html"
  match dlookup tmp_filename st.tmpDir with
  | some _ =>
    (match touchM st tmp_filename with
     | Except.error e => (Except.error e, st, 0)
     | Except.ok st1 =>
       match readFileM st1 tmp_filename with
       | Except.ok c => (Except.ok (pyStrip c), st1, 0)
       | Except.error e => (Except.error e, st1, 0))
  | none =>
    match writeTex2Html env st cmd_parts tex tmp_filename with
    | (Except.ok _, st1, n) =>
      (match readFileM st1 tmp_filename with
       | Except.ok c => (Except.ok (pyStrip c), st1, n)
       | Except.error e => (Except.error e, st1, n))
    | (Except.error e, st1, n) => (Except.error e, st1, n)

/-- Translation of tex2html: the body above wrapped in try/finally, where the finally block
runs the janitor; an exception escaping the janitor replaces the outcome. -/
def tex2html (env : Env) (st : WState) (tex : String)
    (options : List (String × ArgValue)) : Except Err String × WState × Nat :=
  let body := tex2htmlBody env st tex options
  match cleanupTmpDir env body.2.1 with
  | (st2, none) => (body.1, st2, body.2.2)
  | (st2, some e) => (Except.error e, st2, body.2.2)

/-! ## BinaryResolver (_get_usr_parts, wrapper.py lines 67-96)

The filesystem outside TMP_DIR and the version-probe subprocesses are
oracles.  cmdCacheContent is the content of TMP_LOCAL_CMD_CACHE when that
file exists; envPaths is the directory list _get_env_paths() yields (PATH
entries plus the fallback bin directory); checkOutput is sp.check_output,
none meaning CalledProcessError or OSError.  On acceptance the source also
persists the parts to the cache file (lines 92-94), a write that does not
affect the value returned and is not tracked here.
-/

structure ResolveEnv where
  cmdCacheContent : Option String
  pathExists : String → Bool
  envPaths : List String
  isFile : String → Bool
  checkOutput : List String → Option String
  osname : String

def CMD_NAME : String := "katex"

/-- Translation of _get_local_bin_candidates (wrapper.py lines 57-64). -/
def getLocalBinCandidates (osname : String) : List String :=
  if osname = "Windows" then
    [CMD_NAME ++ ".cmd", CMD_NAME ++ ".exe",
     "npx.cmd --no-install " ++ CMD_NAME, "npx.exe --no-install " ++ CMD_NAME,
     CMD_NAME ++ ".ps1", "npx.ps1 --no-install " ++ CMD_NAME]
  else [CMD_NAME, "npx --no-install " ++ CMD_NAME]

/-- One or more leading digits; returns the remainder on success. -/
def chompDigits1 : List Char → Option (List Char)
  | c :: r => if c.isDigit then some (r.dropWhile (fun d => d.isDigit)) else none
  | [] => none

/-- re.match("\d+\.\d+\.\d+", s) is not None: a version-shaped prefix. -/
def versionMatch (s : String) : Bool :=
  match chompDigits1 s.data with
  | some ('.' :: r1) =>
    (match chompDigits1 r1 with
     | some ('.' :: r2) => (chompDigits1 r2).isSome
     | _ => false)
  | _ => false

/-- The body of the candidate loop (wrapper.py lines 75-95): the file must
exist, and the --version probe must succeed with version-shaped output. -/
def tryCandidate (env : ResolveEnv) (path local_cmd : String) : Option (List String) :=
  let local_cmd_parts := pySplitWs local_cmd
  let bin_name := local_cmd_parts.headD ""
  let local_bin := path ++ "/" ++ bin_name
  if env.isFile local_bin then
    let parts := local_bin :: local_cmd_parts.tail
    match env.checkOutput (parts ++ ["--version"]) with
    | some out => if versionMatch (pyStrip out) then some parts else none
    | none => none
  else none

def searchAll (env : ResolveEnv) : Option (List String) :=
  env.envPaths.findSome? (fun path =>
    (getLocalBinCandidates env.osname).findSome? (tryCandidate env path))

/-- Translation of _get_usr_parts (wrapper.py lines 67-96).  The Bool records whether the
search loop over the env paths ran at all. -/
def getUsrParts (env : ResolveEnv) : Option (List String) × Bool :=
  match env.cmdCacheContent with
  | some local_cmd =>
    let local_cmd_parts := pySplitNl local_cmd
    if env.pathExists (local_cmd_parts.headD "") then (some local_cmd_parts, false)
    else (searchAll env, true)
  | none => (searchAll env, true)


/-! ## Bookkeeping lemmas: assoc-list directory listings -/

theorem dlookup_append_of_none {n : String} {d : Dir} (l : Dir)
    (h : dlookup n d = none) :
    dlookup n (d ++ l) = dlookup n l := by
  induction d with
  | nil => simp
  | cons p r ih =>
    rcases p with ⟨k, v⟩
    by_cases hp : n = k
    · simp [dlookup, hp] at h
    · simp only [dlookup, if_neg hp] at h
      simpa [dlookup, hp] using ih h

theorem dlookup_append_singleton_ne {d : Dir} {n m : String} (e : Entry)
    (h : m ≠ n) : dlookup m (d ++ [(n, e)]) = dlookup m d := by
  induction d with
  | nil => simp [dlookup, h]
  | cons p r ih =>
    rcases p with ⟨k, v⟩
    by_cases hp : m = k
    · simp [dlookup, hp]
    · simp [dlookup, hp, ih]

theorem dlookup_mapReplace_self {d : Dir} {n : String} (e : Entry)
    (h : (dlookup n d).isSome) :
    dlookup n (mapReplace d n e) = some e := by
  induction d with
  | nil => simp [dlookup] at h
  | cons p r ih =>
    rcases p with ⟨k, v⟩
    by_cases hk : k = n
    · simp [mapReplace, hk, dlookup]
    · have hnk : ¬n = k := fun hx => hk hx.symm
      simp only [dlookup, if_neg hnk] at h
      simp [mapReplace, hk, dlookup, hnk, ih h]

theorem dlookup_mapReplace_ne {d : Dir} {n m : String} (e : Entry)
    (h : m ≠ n) : dlookup m (mapReplace d n e) = dlookup m d := by
  induction d with
  | nil => simp [mapReplace]
  | cons p r ih =>
    rcases p with ⟨k, v⟩
    by_cases hk : k = n
    · subst hk
      simp [mapReplace, dlookup, if_neg h, ih]
    · by_cases hm : m = k
      · simp [mapReplace, hk, dlookup, hm]
      · simp [mapReplace, hk, dlookup, hm, ih]

theorem dlookup_dirSet_self {d : Dir} {n : String} (e : Entry)
    (h : (dlookup n d).isSome) :
    dlookup n (dirSet d n e) = some e := by
  simp only [dirSet, if_pos h]
  exact dlookup_mapReplace_self e h

theorem dlookup_dirSet_ne {d : Dir} {n m : String} (e : Entry) (h : m ≠ n) :
    dlookup m (dirSet d n e) = dlookup m d := by
  unfold dirSet
  by_cases hs : (dlookup n d).isSome
  · simp only [if_pos hs]
    exact dlookup_mapReplace_ne e h
  · simp only [if_neg hs]
    exact dlookup_append_singleton_ne e h

theorem dirSet_absent {d : Dir} {n : String} (e : Entry)
    (h : dlookup n d = none) : dirSet d n e = d ++ [(n, e)] := by
  simp [dirSet, h]

theorem dlookup_filter_some {d : Dir} {n : String} {e : Entry}
    {q : String × Entry → Bool}
    (h : dlookup n d = some e) (hq : q (n, e) = true) :
    dlookup n (d.filter q) = some e := by
  induction d with
  | nil => simp [dlookup] at h
  | cons p r ih =>
    rcases p with ⟨k, v⟩
    by_cases hp : n = k
    · subst hp
      rw [dlookup, if_pos rfl] at h
      have hv : v = e := by simpa using h
      subst hv
      rw [List.filter_cons, if_pos hq]
      simp [dlookup]
    · rw [dlookup, if_neg hp] at h
      rw [List.filter_cons]
      by_cases hqp : q (k, v) = true
      · rw [if_pos hqp]
        simp [dlookup, hp]
        exact ih h
      · rw [if_neg hqp]
        exact ih h

theorem dlookup_filter_none {d : Dir} {n : String} {q : String × Entry → Bool}
    (h : dlookup n d = none) : dlookup n (d.filter q) = none := by
  induction d with
  | nil => simpa using h
  | cons p r ih =>
    rcases p with ⟨k, v⟩
    by_cases hp : n = k
    · simp [dlookup, hp] at h
    · rw [dlookup, if_neg hp] at h
      rw [List.filter_cons]
      by_cases hqp : q (k, v) = true
      · rw [if_pos hqp]
        simp [dlookup, hp]
        exact ih h
      · rw [if_neg hqp]
        exact ih h

theorem filterKeyNe_eq_self {d : Dir} {n : String}
    (h : dlookup n d = none) : d.filter (fun p => p.1 != n) = d := by
  induction d with
  | nil => simp
  | cons p r ih =>
    rcases p with ⟨k, v⟩
    by_cases hp : n = k
    · simp [dlookup, hp] at h
    · rw [dlookup, if_neg hp] at h
      have hk : ((k, v).1 != n) = true := by
        simp [bne_iff_ne]
        exact fun hx => hp hx.symm
      rw [List.filter_cons, if_pos hk, ih h]

/-! ## Janitor characterization -/

/-- The keep predicate of one sweep: directories always, files only when
their mtime is at least the retention cutoff. -/
def keepEntry (minMtime : Int) (p : String × Entry) : Bool :=
  match p.2 with
  | Entry.file _ t => !decide (t < minMtime)
  | Entry.dir => true

theorem cleanupGo_no_fail {fails : String → Bool} (minMtime : Int)
    (h : ∀ n, fails n = false) (d : Dir) :
    cleanupGo fails minMtime d = (d.filter (keepEntry minMtime), none) := by
  induction d with
  | nil => simp [cleanupGo]
  | cons p r ih =>
    rcases p with ⟨n, e⟩
    cases e with
    | dir => simp [cleanupGo, List.filter_cons, keepEntry, ih]
    | file c t =>
      by_cases ht : t < minMtime
      · simp [cleanupGo, ht, h n, List.filter_cons, keepEntry, ih]
      · simp [cleanupGo, ht, List.filter_cons, keepEntry, ih]

theorem cleanupTmpDir_no_fail (env : Env) (st : WState)
    (h : ∀ n, env.unlinkFails n = false) :
    cleanupTmpDir env st =
      ({ st with tmpDir := st.tmpDir.filter (keepEntry (st.now - 24 * 60 * 60)) }, none) := by
  simp [cleanupTmpDir, cleanupGo_no_fail _ h]

/-! ## The digest as a function of the concatenated bytes -/

theorem hasher_foldl_absorbed (parts : List String) (b : List Nat) :
    (parts.foldl (fun (h : Sha256Hasher) p => h.update (utf8Str p))
      (Sha256Hasher.mk b)).absorbed = b ++ (parts.map utf8Str).flatten := by
  induction parts generalizing b with
  | nil => simp
  | cons p r ih =>
    rw [List.foldl_cons]
    have h1 : Sha256Hasher.update (Sha256Hasher.mk b) (utf8Str p) =
        Sha256Hasher.mk (b ++ utf8Str p) := rfl
    rw [h1, ih]
    simp [List.append_assoc]

/-- The function _cmd_digest hashes exactly the UTF-8 bytes of the text followed by the
UTF-8 bytes of every command token in order. -/
theorem cmdDigest_eq_sha256hex (tex : String) (parts : List String) :
    cmdDigest tex parts = sha256hex (hashInput tex parts) := by
  unfold cmdDigest Sha256Hasher.hexdigest hashInput
  rw [hasher_foldl_absorbed]

/-! ## Injectivity of the UTF-8 encoding -/

theorem charToNat_lt (c : Char) : c.toNat < 1114112 := by
  have h := c.valid
  unfold Char.toNat
  rcases h with h | ⟨h1, h2⟩
  · omega
  · omega

theorem charToNat_inj {c d : Char} (h : c.toNat = d.toNat) : c = d :=
  Char.ext (UInt32.ext h)

theorem utf8Char_append_inj {a b : Nat} (ha : a < 1114112) (hb : b < 1114112)
    {s t : List Nat} (h : utf8Char a ++ s = utf8Char b ++ t) : a = b ∧ s = t := by
  unfold utf8Char at h
  split_ifs at h <;>
    simp only [List.cons_append, List.nil_append, List.cons.injEq] at h <;>
    first
    | (obtain ⟨e1, e2⟩ := h; exact ⟨by omega, e2⟩)
    | (obtain ⟨e1, e2, e3⟩ := h; exact ⟨by omega, e3⟩)
    | (obtain ⟨e1, e2, e3, e4⟩ := h; exact ⟨by omega, e4⟩)
    | (obtain ⟨e1, e2, e3, e4, e5⟩ := h; exact ⟨by omega, e5⟩)
    | (exact absurd h.1 (by omega))

theorem utf8Char_ne_nil (n : Nat) : utf8Char n ≠ [] := by
  unfold utf8Char
  split_ifs <;> simp

theorem utf8List_inj : ∀ l1 l2 : List Char,
    l1.flatMap (fun c => utf8Char c.toNat) = l2.flatMap (fun c => utf8Char c.toNat) →
    l1 = l2 := by
  intro l1
  induction l1 with
  | nil =>
    intro l2 h
    cases l2 with
    | nil => rfl
    | cons d s =>
      exfalso
      rw [List.flatMap_nil, List.flatMap_cons] at h
      rcases he : utf8Char d.toNat with _ | ⟨x, r⟩
      · exact utf8Char_ne_nil _ he
      · rw [he] at h; simp at h
  | cons c r ih =>
    intro l2 h
    cases l2 with
    | nil =>
      exfalso
      rw [List.flatMap_cons, List.flatMap_nil] at h
      rcases he : utf8Char c.toNat with _ | ⟨x, rr⟩
      · exact utf8Char_ne_nil _ he
      · rw [he] at h; simp at h
    | cons d s =>
      rw [List.flatMap_cons, List.flatMap_cons] at h
      obtain ⟨hn, ht⟩ := utf8Char_append_inj (charToNat_lt c) (charToNat_lt d) h
      rw [charToNat_inj hn, ih s ht]

theorem utf8Str_inj {s t : String} (h : utf8Str s = utf8Str t) : s = t := by
  rcases s with ⟨l1⟩
  rcases t with ⟨l2⟩
  unfold utf8Str at h
  exact congrArg String.mk (utf8List_inj l1 l2 h)

/-! ## The cache file names: digest.html and digest.tex -/

theorem hexChar_ne_dot (n : Nat) : hexChar n ≠ '.' := by
  unfold hexChar
  split <;> decide

theorem digest_no_dot (msg : List Nat) : ∀ c ∈ (sha256hex msg).data, c ≠ '.' := by
  intro c hc
  unfold sha256hex at hc
  obtain ⟨w, _, hcw⟩ := List.mem_flatMap.mp hc
  unfold hex8chars at hcw
  obtain ⟨i, _, hceq⟩ := List.mem_map.mp hcw
  rw [← hceq]
  exact hexChar_ne_dot _

theorem texifyName_cons_ne_dot (c : Char) (rest : List Char) (hc : c ≠ '.') :
    texifyName (c :: rest) = c :: texifyName rest := by
  rw [texifyName.eq_def]
  split
  · rename_i h1
    exact absurd (List.cons.injEq .. |>.mp h1).1 hc
  · rename_i c2 rest2 h1
    have := (List.cons.injEq .. |>.mp h1)
    rw [this.1, this.2]
  · rename_i h1
    exact absurd h1 (by simp)

theorem texifyName_hex_append {l : List Char} (h : ∀ c ∈ l, c ≠ '.') :
    texifyName (l ++ ('.' :: 'h' :: 't' :: 'm' :: 'l' :: [])) =
      l ++ ('.' :: 't' :: 'e' :: 'x' :: []) := by
  induction l with
  | nil => rfl
  | cons c r ih =>
    rw [List.cons_append, texifyName_cons_ne_dot c _ (h c (by simp)),
        ih (fun x hx => h x (by simp [hx])), List.cons_append]

theorem pyReplaceHtmlTex_digestName (msg : List Nat) :
    pyReplaceHtmlTex (sha256hex msg ++ ".html") = sha256hex msg ++ ".tex" := by
  unfold pyReplaceHtmlTex
  rw [String.data_append]
  have hh : (".html" : String).data = ('.' :: 'h' :: 't' :: 'm' :: 'l' :: []) := rfl
  rw [hh, texifyName_hex_append (digest_no_dot msg)]
  rcases hs : sha256hex msg with ⟨l⟩
  rfl

theorem texName_ne_htmlName (msg : List Nat) :
    sha256hex msg ++ ".tex" ≠ sha256hex msg ++ ".html" := by
  intro h
  have hl := congrArg (fun s : String => s.data.length) h
  have h4 : (".tex" : String).data.length = 4 := rfl
  have h5 : (".html" : String).data.length = 5 := rfl
  simp only [String.data_append, List.length_append, h4, h5] at hl
  omega

/-! ## Flow lemmas for tex2html -/

theorem keepEntry_fresh (now : Int) (n : String) (c : String) :
    keepEntry (now - 24 * 60 * 60) (n, Entry.file c now) = true := by
  simp only [keepEntry, Bool.not_eq_true']
  rw [decide_eq_false_iff_not]
  omega

/-- The cache-hit branch: the file is touched, read and stripped, with no
renderer spawn. -/
theorem tex2htmlBody_hit (env : Env) (st : WState) (tex : String)
    (options : List (String × ArgValue)) (c : String) (t : Int)
    (hHit : dlookup (cacheName env tex options) st.tmpDir = some (Entry.file c t)) :
    tex2htmlBody env st tex options =
      (Except.ok (pyStrip c),
       { st with tmpDir := dirSet st.tmpDir (cacheName env tex options)
                   (Entry.file c st.now) }, 0) := by
  have hn : cacheName env tex options =
      cmdDigest tex (iterCmdParts env.binCmd options) ++ ".html" := rfl
  rw [hn] at hHit ⊢
  have hsome : (dlookup (cmdDigest tex (iterCmdParts env.binCmd options) ++ ".html")
      st.tmpDir).isSome := by rw [hHit]; rfl
  have hread := dlookup_dirSet_self (d := st.tmpDir)
    (n := cmdDigest tex (iterCmdParts env.binCmd options) ++ ".html")
    (Entry.file c st.now) hsome
  simp only [tex2htmlBody, touchM, readFileM, hHit, hread]

/-- The full cache-hit call: the janitor then sweeps the touched state and
raises nothing. -/
theorem tex2html_hit (env : Env) (st : WState) (tex : String)
    (options : List (String × ArgValue)) (c : String) (t : Int)
    (hNoFail : ∀ n, env.unlinkFails n = false)
    (hHit : dlookup (cacheName env tex options) st.tmpDir = some (Entry.file c t)) :
    tex2html env st tex options =
      (Except.ok (pyStrip c),
       { st with tmpDir := (dirSet st.tmpDir (cacheName env tex options)
                   (Entry.file c st.now)).filter (keepEntry (st.now - 24 * 60 * 60)) },
       0) := by
  simp only [tex2html, tex2htmlBody_hit env st tex options c t hHit,
    cleanupTmpDir_no_fail env _ hNoFail]

/-- After a cache-hit call the cache entry is present with refreshed mtime. -/
theorem tex2html_hit_lookup (env : Env) (st : WState) (tex : String)
    (options : List (String × ArgValue)) (c : String) (t : Int)
    (hNoFail : ∀ n, env.unlinkFails n = false)
    (hHit : dlookup (cacheName env tex options) st.tmpDir = some (Entry.file c t)) :
    dlookup (cacheName env tex options) (tex2html env st tex options).2.1.tmpDir =
      some (Entry.file c st.now) := by
  rw [tex2html_hit env st tex options c t hNoFail hHit]
  exact dlookup_filter_some
    (dlookup_dirSet_self _ (by rw [hHit]; rfl))
    (keepEntry_fresh st.now _ c)

/-- A successful renderer run on a cache miss: the input file is written then
unlinked, the output file keeps the bytes the renderer wrote. -/
theorem writeTex2Html_ok (env : Env) (st : WState) (cmd_parts : List String)
    (tex outName : String) (r : ProcResult) (out : String)
    (hNoFail : ∀ n, env.unlinkFails n = false)
    (hne : pyReplaceHtmlTex outName ≠ outName)
    (hOut : dlookup outName st.tmpDir = none)
    (hIn : dlookup (pyReplaceHtmlTex outName) st.tmpDir = none)
    (hRun : env.runProc (cmd_parts ++ ["--input", pathIn (pyReplaceHtmlTex outName),
      "--output", pathIn outName]) = some r)
    (hZero : r.retcode = 0) (hWrite : r.written = some out) :
    writeTex2Html env st cmd_parts tex outName =
      (Except.ok (),
       { st with tmpDir := st.tmpDir ++ [(outName, Entry.file out st.now)] }, 1) := by
  have hOut1 : dlookup outName
      (st.tmpDir ++ [(pyReplaceHtmlTex outName, Entry.file tex st.now)]) = none := by
    rw [dlookup_append_of_none _ hOut]
    simp [dlookup]
    exact fun h => hne h.symm
  have hIn2 : dlookup (pyReplaceHtmlTex outName)
      ((st.tmpDir ++ [(pyReplaceHtmlTex outName, Entry.file tex st.now)]) ++
        [(outName, Entry.file out st.now)]) = some (Entry.file tex st.now) := by
    rw [List.append_assoc, dlookup_append_of_none _ hIn]
    simp [dlookup]
  have hKeep : ((outName, Entry.file out st.now).1 != pyReplaceHtmlTex outName) = true := by
    simp [bne_iff_ne]
    exact fun h => hne h.symm
  have hDrop : ((pyReplaceHtmlTex outName, Entry.file tex st.now).1 !=
      pyReplaceHtmlTex outName) = false := by simp
  simp only [writeTex2Html, writeFileM, hIn, dirSet_absent _ hIn, hRun, hWrite, hZero,
    unlinkM, hNoFail]
  norm_num
  rw [dirSet_absent _ hOut1]
  simp only [hIn2]
  rw [List.filter_append, List.filter_append, filterKeyNe_eq_self hIn,
    List.filter_cons, hDrop, List.filter_nil, List.filter_cons, hKeep, List.filter_nil]
  simp

/-- The cache-miss, renderer-success path of the body. -/
theorem tex2htmlBody_miss_ok (env : Env) (st : WState) (tex : String)
    (options : List (String × ArgValue)) (r : ProcResult) (out : String)
    (hNoFail : ∀ n, env.unlinkFails n = false)
    (hMiss : dlookup (cacheName env tex options) st.tmpDir = none)
    (hIn : dlookup (pyReplaceHtmlTex (cacheName env tex options)) st.tmpDir = none)
    (hRun : env.runProc (iterCmdParts env.binCmd options ++
      ["--input", pathIn (pyReplaceHtmlTex (cacheName env tex options)),
       "--output", pathIn (cacheName env tex options)]) = some r)
    (hZero : r.retcode = 0) (hWrite : r.written = some out) :
    tex2htmlBody env st tex options =
      (Except.ok (pyStrip out),
       { st with tmpDir := st.tmpDir ++ [(cacheName env tex options, Entry.file out st.now)] },
       1) := by
  have hn : cacheName env tex options =
      cmdDigest tex (iterCmdParts env.binCmd options) ++ ".html" := rfl
  have hne : pyReplaceHtmlTex (cacheName env tex options) ≠ cacheName env tex options := by
    rw [hn, cmdDigest_eq_sha256hex, pyReplaceHtmlTex_digestName]
    exact texName_ne_htmlName _
  have hW := writeTex2Html_ok env st (iterCmdParts env.binCmd options) tex
    (cacheName env tex options) r out hNoFail hne hMiss hIn hRun hZero hWrite
  rw [hn] at hW hMiss
  have hRead : dlookup (cmdDigest tex (iterCmdParts env.binCmd options) ++ ".html")
      (st.tmpDir ++ [(cmdDigest tex (iterCmdParts env.binCmd options) ++ ".html",
        Entry.file out st.now)]) = some (Entry.file out st.now) := by
    rw [dlookup_append_of_none _ hMiss]
    simp [dlookup]
  simp only [tex2htmlBody, hMiss, hW, readFileM, hRead]
  rw [hn]

/-- The full cache-miss, renderer-success call, janitor included. -/
theorem tex2html_miss_ok (env : Env) (st : WState) (tex : String)
    (options : List (String × ArgValue)) (r : ProcResult) (out : String)
    (hNoFail : ∀ n, env.unlinkFails n = false)
    (hMiss : dlookup (cacheName env tex options) st.tmpDir = none)
    (hIn : dlookup (pyReplaceHtmlTex (cacheName env tex options)) st.tmpDir = none)
    (hRun : env.runProc (iterCmdParts env.binCmd options ++
      ["--input", pathIn (pyReplaceHtmlTex (cacheName env tex options)),
       "--output", pathIn (cacheName env tex options)]) = some r)
    (hZero : r.retcode = 0) (hWrite : r.written = some out) :
    tex2html env st tex options =
      (Except.ok (pyStrip out),
       { st with tmpDir := st.tmpDir.filter (keepEntry (st.now - 24 * 60 * 60)) ++
           [(cacheName env tex options, Entry.file out st.now)] },
       1) := by
  simp only [tex2html,
    tex2htmlBody_miss_ok env st tex options r out hNoFail hMiss hIn hRun hZero hWrite,
    cleanupTmpDir_no_fail env _ hNoFail]
  rw [List.filter_append, List.filter_cons, keepEntry_fresh, List.filter_nil]
  simp

/-- A renderer exiting with a positive code: KatexError with the stripped
stdout+stderr, and the temp input file is left behind (the unlink after the
try/finally never runs). -/
theorem writeTex2Html_posExit (env : Env) (st : WState) (cmd_parts : List String)
    (tex outName : String) (r : ProcResult)
    (hIn : dlookup (pyReplaceHtmlTex outName) st.tmpDir = none)
    (hRun : env.runProc (cmd_parts ++ ["--input", pathIn (pyReplaceHtmlTex outName),
      "--output", pathIn outName]) = some r)
    (hPos : 0 < r.retcode) (hNoWrite : r.written = none) :
    writeTex2Html env st cmd_parts tex outName =
      (Except.error (Err.katex ("Error processing " ++ squote ++ tex ++ squote ++ ": " ++
        pyStrip (r.stdout ++ "\n" ++ r.stderr))),
       { st with tmpDir := st.tmpDir ++ [(pyReplaceHtmlTex outName, Entry.file tex st.now)] },
       1) := by
  have hneg : ¬(r.retcode < 0) := by omega
  simp only [writeTex2Html, writeFileM, hIn, dirSet_absent _ hIn, hRun, hNoWrite,
    if_neg hneg, if_pos hPos]

/-- A renderer killed by a signal: KatexError naming the signal, input file
left behind. -/
theorem writeTex2Html_signaled (env : Env) (st : WState) (cmd_parts : List String)
    (tex outName : String) (r : ProcResult) (nm : String)
    (hIn : dlookup (pyReplaceHtmlTex outName) st.tmpDir = none)
    (hRun : env.runProc (cmd_parts ++ ["--input", pathIn (pyReplaceHtmlTex outName),
      "--output", pathIn outName]) = some r)
    (hNeg : r.retcode < 0) (hNoWrite : r.written = none)
    (hSig : List.lookup (Int.natAbs r.retcode : Int) SIG_NAME_BY_NUM = some nm) :
    writeTex2Html env st cmd_parts tex outName =
      (Except.error (Err.katex ("Error processing " ++ squote ++ tex ++ squote ++ ": " ++
        "katex_cli process ended with " ++ "code " ++ toString r.retcode ++
        " (" ++ nm ++ ")")),
       { st with tmpDir := st.tmpDir ++ [(pyReplaceHtmlTex outName, Entry.file tex st.now)] },
       1) := by
  simp only [writeTex2Html, writeFileM, hIn, dirSet_absent _ hIn, hRun, hNoWrite,
    if_pos hNeg, hSig]

/-- The full cache-miss call when the renderer exits with a positive code:
the KatexError propagates through the janitor, and the fresh temp input file
survives the sweep. -/
theorem tex2html_miss_posExit (env : Env) (st : WState) (tex : String)
    (options : List (String × ArgValue)) (r : ProcResult)
    (hNoFail : ∀ n, env.unlinkFails n = false)
    (hMiss : dlookup (cacheName env tex options) st.tmpDir = none)
    (hIn : dlookup (pyReplaceHtmlTex (cacheName env tex options)) st.tmpDir = none)
    (hRun : env.runProc (iterCmdParts env.binCmd options ++
      ["--input", pathIn (pyReplaceHtmlTex (cacheName env tex options)),
       "--output", pathIn (cacheName env tex options)]) = some r)
    (hPos : 0 < r.retcode) (hNoWrite : r.written = none) :
    tex2html env st tex options =
      (Except.error (Err.katex ("Error processing " ++ squote ++ tex ++ squote ++ ": " ++
        pyStrip (r.stdout ++ "\n" ++ r.stderr))),
       { st with tmpDir := st.tmpDir.filter (keepEntry (st.now - 24 * 60 * 60)) ++
           [(pyReplaceHtmlTex (cacheName env tex options), Entry.file tex st.now)] },
       1) := by
  have hn : cacheName env tex options =
      cmdDigest tex (iterCmdParts env.binCmd options) ++ ".html" := rfl
  have hW := writeTex2Html_posExit env st (iterCmdParts env.binCmd options) tex
    (cacheName env tex options) r hIn hRun hPos hNoWrite
  rw [hn] at hW hMiss
  simp only [tex2html, tex2htmlBody, hMiss, hW, cleanupTmpDir_no_fail env _ hNoFail]
  rw [hn, List.filter_append, List.filter_cons, keepEntry_fresh, List.filter_nil]
  simp

/-- An error escaping the janitor in the finally block replaces the outcome
of the whole render call. -/
theorem tex2html_janitor_error (env : Env) (st : WState) (tex : String)
    (options : List (String × ArgValue)) (er : Err) (st2 : WState)
    (h : cleanupTmpDir env (tex2htmlBody env st tex options).2.1 = (st2, some er)) :
    tex2html env st tex options =
      (Except.error er, st2, (tex2htmlBody env st tex options).2.2) := by
  simp only [tex2html, h]

/-! ## Claim theorems -/

/-- Written to the words of spec section 4.2 (CommandBuilder), for comparison
with the source translation iterCmdParts: append to the resolved invocation,
for each option in iteration order, a bare flag for true, nothing for false,
and flag-then-string-form otherwise, prefixing names with "--" when needed. -/
def buildArgvSpec (resolvedBinary : List String)
    (options : List (String × ArgValue)) : List String :=
  resolvedBinary ++ options.flatMap (fun p =>
    let nm := if leadsWithDashDash p.1 then p.1 else "--" ++ p.1
    match p.2 with
    | ArgValue.bool true => [nm]
    | ArgValue.bool false => []
    | v => [nm, strArgValue v])

theorem optLoop_eq_flatMap (l : List (String × ArgValue)) :
    optLoop l = l.flatMap (fun p =>
      let nm := if leadsWithDashDash p.1 then p.1 else "--" ++ p.1
      match p.2 with
      | ArgValue.bool true => [nm]
      | ArgValue.bool false => []
      | v => [nm, strArgValue v]) := by
  induction l with
  | nil => rfl
  | cons p r ih =>
    rcases p with ⟨nm, v⟩
    rw [List.flatMap_cons, optLoop, ih]
    rcases v with s | i | fr | b
    · simp
    · simp
    · simp
    · cases b <;> simp

/-- Claim C6: for every options map the built argument vector equals the
resolved invocation tokens followed, per option in iteration order, by a
bare --name flag for boolean true, nothing for boolean false, and --name
followed by the string form otherwise, names being prefixed with -- unless
already so. -/
theorem c6_command_builder (binCmd : List String)
    (options : List (String × ArgValue)) :
    iterCmdParts binCmd options = buildArgvSpec binCmd options := by
  unfold iterCmdParts buildArgvSpec
  congr 1
  cases options with
  | nil => rfl
  | cons p r =>
    rw [if_neg (by simp)]
    exact optLoop_eq_flatMap (p :: r)

/-- Claim C5: a sweep deletes exactly the regular files strictly older than
now minus 24 hours (86400 s): the error slot is empty, the surviving listing
is the retention filter of the old one, a file dated now-T-1 is gone, a file
dated now-T+1 survives, and directories always survive. -/
theorem c5_janitor_sweep (env : Env) (st : WState)
    (hNoFail : ∀ n, env.unlinkFails n = false) :
    (cleanupTmpDir env st).2 = none ∧
    (cleanupTmpDir env st).1.tmpDir =
      st.tmpDir.filter (keepEntry (st.now - 24 * 60 * 60)) ∧
    (∀ n c, (n, Entry.file c (st.now - 24 * 60 * 60 - 1)) ∉
      (cleanupTmpDir env st).1.tmpDir) ∧
    (∀ n c, (n, Entry.file c (st.now - 24 * 60 * 60 + 1)) ∈ st.tmpDir →
      (n, Entry.file c (st.now - 24 * 60 * 60 + 1)) ∈ (cleanupTmpDir env st).1.tmpDir) ∧
    (∀ n, (n, Entry.dir) ∈ st.tmpDir →
      (n, Entry.dir) ∈ (cleanupTmpDir env st).1.tmpDir) := by
  rw [cleanupTmpDir_no_fail env st hNoFail]
  refine ⟨rfl, rfl, ?_, ?_, ?_⟩
  · intro n c hmem
    have := (List.mem_filter.mp hmem).2
    simp only [keepEntry, Bool.not_eq_true'] at this
    rw [decide_eq_false_iff_not] at this
    omega
  · intro n c hmem
    refine List.mem_filter.mpr ⟨hmem, ?_⟩
    simp only [keepEntry, Bool.not_eq_true']
    rw [decide_eq_false_iff_not]
    omega
  · intro n hmem
    exact List.mem_filter.mpr ⟨hmem, rfl⟩

theorem c5_janitor_sweep_witness :
    (cleanupTmpDir ⟨["katex"], fun _ => none, fun _ => false⟩
      ⟨[("old.html", Entry.file "a" 13599), ("new.html", Entry.file "b" 13601),
        ("sub", Entry.dir)], 100000⟩).2 = none ∧
    (cleanupTmpDir ⟨["katex"], fun _ => none, fun _ => false⟩
      ⟨[("old.html", Entry.file "a" 13599), ("new.html", Entry.file "b" 13601),
        ("sub", Entry.dir)], 100000⟩).1.tmpDir =
      [("new.html", Entry.file "b" 13601), ("sub", Entry.dir)] ∧
    ("old.html", Entry.file "a" (100000 - 24 * 60 * 60 - 1)) ∉
      (cleanupTmpDir ⟨["katex"], fun _ => none, fun _ => false⟩
        ⟨[("old.html", Entry.file "a" 13599), ("new.html", Entry.file "b" 13601),
          ("sub", Entry.dir)], 100000⟩).1.tmpDir ∧
    ("new.html", Entry.file "b" (100000 - 24 * 60 * 60 + 1)) ∈
      (cleanupTmpDir ⟨["katex"], fun _ => none, fun _ => false⟩
        ⟨[("old.html", Entry.file "a" 13599), ("new.html", Entry.file "b" 13601),
          ("sub", Entry.dir)], 100000⟩).1.tmpDir ∧
    ("sub", Entry.dir) ∈
      (cleanupTmpDir ⟨["katex"], fun _ => none, fun _ => false⟩
        ⟨[("old.html", Entry.file "a" 13599), ("new.html", Entry.file "b" 13601),
          ("sub", Entry.dir)], 100000⟩).1.tmpDir := by
  have h := c5_janitor_sweep ⟨["katex"], fun _ => none, fun _ => false⟩
    ⟨[("old.html", Entry.file "a" 13599), ("new.html", Entry.file "b" 13601),
      ("sub", Entry.dir)], 100000⟩ (fun _ => rfl)
  refine ⟨h.1, by decide, ?_, ?_, ?_⟩
  · have := h.2.2.1 "old.html" "a"
    simpa using this
  · have := h.2.2.2.1 "new.html" "b" (by decide)
    simpa using this
  · exact h.2.2.2.2 "sub" (by decide)

/-- Claim C3: when the persisted resolution file exists and the executable
named on its first line still exists, resolution returns the cached token
list verbatim and the search loop over the executable path never runs. -/
theorem c3_resolution_cache (env : ResolveEnv) (s : String)
    (hc : env.cmdCacheContent = some s)
    (hp : env.pathExists ((pySplitNl s).headD "") = true) :
    getUsrParts env = (some (pySplitNl s), false) := by
  have hp2 : env.pathExists ((pySplitNl s).head?.getD "") = true := by
    simpa [List.headD_eq_head?_getD] using hp
  simp [getUsrParts, hc, hp2]

theorem c3_resolution_cache_witness :
    getUsrParts ⟨some "/usr/local/bin/npx\n--no-install katex", fun _ => true,
      ["/usr/bin"], fun _ => false, fun _ => none, "Linux"⟩ =
      (some (pySplitNl "/usr/local/bin/npx\n--no-install katex"), false) :=
  c3_resolution_cache _ "/usr/local/bin/npx\n--no-install katex" rfl rfl

/-- Claim C7: the reverse signal lookup maps 15 to SIGTERM, and a renderer
terminated by a signal (negative exit status) yields a KatexError whose
message names the signal resolved through that lookup. -/
theorem c7_signal_names :
    List.lookup 15 SIG_NAME_BY_NUM = some "SIGTERM" ∧
    (∀ (env : Env) (st : WState) (cmd_parts : List String) (tex outName : String)
        (r : ProcResult) (nm : String),
      dlookup (pyReplaceHtmlTex outName) st.tmpDir = none →
      env.runProc (cmd_parts ++ ["--input", pathIn (pyReplaceHtmlTex outName),
        "--output", pathIn outName]) = some r →
      r.retcode < 0 → r.written = none →
      List.lookup (Int.natAbs r.retcode : Int) SIG_NAME_BY_NUM = some nm →
      ∃ msg, (writeTex2Html env st cmd_parts tex outName).1 =
        Except.error (Err.katex msg) ∧ containsStr msg nm) := by
  refine ⟨by decide, ?_⟩
  intro env st cmd_parts tex outName r nm hIn hRun hNeg hNoWrite hSig
  rw [writeTex2Html_signaled env st cmd_parts tex outName r nm hIn hRun hNeg hNoWrite hSig]
  refine ⟨_, rfl, ("Error processing " ++ squote ++ tex ++ squote ++ ": " ++
    "katex_cli process ended with " ++ "code " ++ toString r.retcode ++ " (").data,
    (")" : String).data, ?_⟩
  simp [String.data_append, List.append_assoc]

theorem c7_signal_names_witness :
    ∃ msg, (writeTex2Html ⟨["katex"], fun _ => some ⟨-15, "", "", none⟩, fun _ => false⟩
        ⟨[], 0⟩ ["katex"] "x^2" "out.html").1 =
      Except.error (Err.katex msg) ∧ containsStr msg "SIGTERM" :=
  c7_signal_names.2 ⟨["katex"], fun _ => some ⟨-15, "", "", none⟩, fun _ => false⟩
    ⟨[], 0⟩ ["katex"] "x^2" "out.html" ⟨-15, "", "", none⟩ "SIGTERM"
    rfl rfl (by decide) rfl (by decide)

/-- Claim C1: when the cache file for the computed digest exists, the render
call refreshes its modification time, reads it, and returns the stripped
content with zero renderer spawns; consequently, after a successful first
call, a second call with identical text and options returns the identical
value and spawns no renderer. -/
theorem c1_cache_hit_idempotent :
    (∀ (env : Env) (st : WState) (tex : String) (options : List (String × ArgValue))
        (c : String) (t : Int),
      (∀ n, env.unlinkFails n = false) →
      dlookup (cacheName env tex options) st.tmpDir = some (Entry.file c t) →
      (tex2html env st tex options).1 = Except.ok (pyStrip c) ∧
      (tex2html env st tex options).2.2 = 0 ∧
      dlookup (cacheName env tex options) (tex2html env st tex options).2.1.tmpDir =
        some (Entry.file c st.now)) ∧
    (∀ (env : Env) (st : WState) (tex : String) (options : List (String × ArgValue))
        (r : ProcResult) (out : String),
      (∀ n, env.unlinkFails n = false) →
      dlookup (cacheName env tex options) st.tmpDir = none →
      dlookup (pyReplaceHtmlTex (cacheName env tex options)) st.tmpDir = none →
      env.runProc (iterCmdParts env.binCmd options ++
        ["--input", pathIn (pyReplaceHtmlTex (cacheName env tex options)),
         "--output", pathIn (cacheName env tex options)]) = some r →
      r.retcode = 0 → r.written = some out →
      (tex2html env (tex2html env st tex options).2.1 tex options).1 =
        (tex2html env st tex options).1 ∧
      (tex2html env (tex2html env st tex options).2.1 tex options).2.2 = 0) := by
  constructor
  · intro env st tex options c t hNoFail hHit
    refine ⟨?_, ?_, tex2html_hit_lookup env st tex options c t hNoFail hHit⟩ <;>
      rw [tex2html_hit env st tex options c t hNoFail hHit]
  · intro env st tex options r out hNoFail hMiss hIn hRun hZero hWrite
    have h1 := tex2html_miss_ok env st tex options r out hNoFail hMiss hIn hRun hZero hWrite
    have hHit2 : dlookup (cacheName env tex options)
        (tex2html env st tex options).2.1.tmpDir = some (Entry.file out st.now) := by
      rw [h1]
      show dlookup _ (st.tmpDir.filter _ ++
        [(cacheName env tex options, Entry.file out st.now)]) = _
      rw [dlookup_append_of_none _ (dlookup_filter_none hMiss)]
      simp [dlookup]
    have hnow : (tex2html env st tex options).2.1.now = st.now := by rw [h1]
    have h2 := tex2html_hit env (tex2html env st tex options).2.1 tex options out st.now
      hNoFail hHit2
    constructor
    · rw [h2, h1]
    · rw [h2]

theorem c1_cache_hit_idempotent_witness :
    ((tex2html ⟨["katex"], fun _ => none, fun _ => false⟩
        ⟨[(cacheName ⟨["katex"], fun _ => none, fun _ => false⟩ "x^2" [],
           Entry.file " <b>42</b> " 5)], 777⟩ "x^2" []).1 =
      Except.ok (pyStrip " <b>42</b> ")) ∧
    ((tex2html ⟨["katex"], fun _ => some ⟨0, "", "", some "<p>x</p>"⟩, fun _ => false⟩
        (tex2html ⟨["katex"], fun _ => some ⟨0, "", "", some "<p>x</p>"⟩, fun _ => false⟩
          ⟨[], 0⟩ "x^2" []).2.1 "x^2" []).1 =
      (tex2html ⟨["katex"], fun _ => some ⟨0, "", "", some "<p>x</p>"⟩, fun _ => false⟩
        ⟨[], 0⟩ "x^2" []).1 ∧
     (tex2html ⟨["katex"], fun _ => some ⟨0, "", "", some "<p>x</p>"⟩, fun _ => false⟩
        (tex2html ⟨["katex"], fun _ => some ⟨0, "", "", some "<p>x</p>"⟩, fun _ => false⟩
          ⟨[], 0⟩ "x^2" []).2.1 "x^2" []).2.2 = 0) :=
  ⟨(c1_cache_hit_idempotent.1 ⟨["katex"], fun _ => none, fun _ => false⟩
      ⟨[(cacheName ⟨["katex"], fun _ => none, fun _ => false⟩ "x^2" [],
         Entry.file " <b>42</b> " 5)], 777⟩ "x^2" [] " <b>42</b> " 5
      (fun _ => rfl) rfl).1,
   c1_cache_hit_idempotent.2 ⟨["katex"], fun _ => some ⟨0, "", "", some "<p>x</p>"⟩,
      fun _ => false⟩ ⟨[], 0⟩ "x^2" [] ⟨0, "", "", some "<p>x</p>"⟩ "<p>x</p>"
      (fun _ => rfl) rfl rfl rfl rfl rfl⟩

/-- Claim C4: when the spawned renderer exits with a positive code, the call
raises a KatexError whose message contains both the input text and the
stripped stdout-then-stderr, and no cache file for the digest remains. -/
theorem c4_nonzero_exit (env : Env) (st : WState) (tex : String)
    (options : List (String × ArgValue)) (r : ProcResult)
    (hNoFail : ∀ n, env.unlinkFails n = false)
    (hMiss : dlookup (cacheName env tex options) st.tmpDir = none)
    (hIn : dlookup (pyReplaceHtmlTex (cacheName env tex options)) st.tmpDir = none)
    (hRun : env.runProc (iterCmdParts env.binCmd options ++
      ["--input", pathIn (pyReplaceHtmlTex (cacheName env tex options)),
       "--output", pathIn (cacheName env tex options)]) = some r)
    (hPos : 0 < r.retcode) (hNoWrite : r.written = none) :
    (∃ msg, (tex2html env st tex options).1 = Except.error (Err.katex msg) ∧
      containsStr msg tex ∧
      containsStr msg (pyStrip (r.stdout ++ "\n" ++ r.stderr))) ∧
    dlookup (cacheName env tex options)
      (tex2html env st tex options).2.1.tmpDir = none := by
  have hne : pyReplaceHtmlTex (cacheName env tex options) ≠ cacheName env tex options := by
    have hn : cacheName env tex options =
        cmdDigest tex (iterCmdParts env.binCmd options) ++ ".html" := rfl
    rw [hn, cmdDigest_eq_sha256hex, pyReplaceHtmlTex_digestName]
    exact texName_ne_htmlName _
  have h := tex2html_miss_posExit env st tex options r hNoFail hMiss hIn hRun hPos hNoWrite
  constructor
  · refine ⟨_, by rw [h], ?_, ?_⟩
    · exact ⟨("Error processing " ++ squote).data,
        (squote ++ ": " ++ pyStrip (r.stdout ++ "\n" ++ r.stderr)).data,
        by simp [String.data_append, List.append_assoc]⟩
    · exact ⟨("Error processing " ++ squote ++ tex ++ squote ++ ": ").data, [],
        by simp [String.data_append, List.append_assoc]⟩
  · rw [h]
    show dlookup _ (st.tmpDir.filter _ ++
      [(pyReplaceHtmlTex (cacheName env tex options), Entry.file tex st.now)]) = _
    rw [dlookup_append_of_none _ (dlookup_filter_none hMiss)]
    simp [dlookup]
    exact fun hx => hne hx.symm

theorem c4_nonzero_exit_witness :
    (∃ msg, (tex2html ⟨["katex"], fun _ => some ⟨1, "", "parse error", none⟩,
        fun _ => false⟩ ⟨[], 0⟩ "x^2" []).1 = Except.error (Err.katex msg) ∧
      containsStr msg "x^2" ∧
      containsStr msg (pyStrip ("" ++ "\n" ++ "parse error"))) ∧
    dlookup (cacheName ⟨["katex"], fun _ => some ⟨1, "", "parse error", none⟩,
        fun _ => false⟩ "x^2" [])
      (tex2html ⟨["katex"], fun _ => some ⟨1, "", "parse error", none⟩,
        fun _ => false⟩ ⟨[], 0⟩ "x^2" []).2.1.tmpDir = none :=
  c4_nonzero_exit ⟨["katex"], fun _ => some ⟨1, "", "parse error", none⟩, fun _ => false⟩
    ⟨[], 0⟩ "x^2" [] ⟨1, "", "parse error", none⟩
    (fun _ => rfl) rfl rfl rfl (by decide) rfl

/-- Claim C8 counterexample: a render call whose renderer exits 1 does NOT
delete the temp input file it created — the unlink after the try/finally is
skipped when the KatexError propagates, so the .tex file is still listed
(with fresh mtime) after the call returns. -/
theorem c8_counterexample :
    (tex2html ⟨["katex"], fun _ => some ⟨1, "", "parse error", none⟩, fun _ => false⟩
        ⟨[], 0⟩ "x^2" []).1 =
      Except.error (Err.katex ("Error processing " ++ squote ++ "x^2" ++ squote ++
        ": parse error")) ∧
    dlookup (pyReplaceHtmlTex (cacheName ⟨["katex"],
        fun _ => some ⟨1, "", "parse error", none⟩, fun _ => false⟩ "x^2" []))
      (tex2html ⟨["katex"], fun _ => some ⟨1, "", "parse error", none⟩, fun _ => false⟩
        ⟨[], 0⟩ "x^2" []).2.1.tmpDir = some (Entry.file "x^2" 0) := by
  constructor
  · rfl
  · rfl

/-- Claim C8 (amended): the temp input file is deleted before returning when
the renderer exits zero; on a nonzero exit it is left in the cache directory
(until a later sweep removes it once stale). -/
theorem c8_input_file_cleanup :
    (∀ (env : Env) (st : WState) (tex : String) (options : List (String × ArgValue))
        (r : ProcResult) (out : String),
      (∀ n, env.unlinkFails n = false) →
      dlookup (cacheName env tex options) st.tmpDir = none →
      dlookup (pyReplaceHtmlTex (cacheName env tex options)) st.tmpDir = none →
      env.runProc (iterCmdParts env.binCmd options ++
        ["--input", pathIn (pyReplaceHtmlTex (cacheName env tex options)),
         "--output", pathIn (cacheName env tex options)]) = some r →
      r.retcode = 0 → r.written = some out →
      dlookup (pyReplaceHtmlTex (cacheName env tex options))
        (tex2html env st tex options).2.1.tmpDir = none) ∧
    (∀ (env : Env) (st : WState) (tex : String) (options : List (String × ArgValue))
        (r : ProcResult),
      (∀ n, env.unlinkFails n = false) →
      dlookup (cacheName env tex options) st.tmpDir = none →
      dlookup (pyReplaceHtmlTex (cacheName env tex options)) st.tmpDir = none →
      env.runProc (iterCmdParts env.binCmd options ++
        ["--input", pathIn (pyReplaceHtmlTex (cacheName env tex options)),
         "--output", pathIn (cacheName env tex options)]) = some r →
      0 < r.retcode → r.written = none →
      dlookup (pyReplaceHtmlTex (cacheName env tex options))
        (tex2html env st tex options).2.1.tmpDir =
          some (Entry.file tex st.now)) := by
  constructor
  · intro env st tex options r out hNoFail hMiss hIn hRun hZero hWrite
    have hne : pyReplaceHtmlTex (cacheName env tex options) ≠ cacheName env tex options := by
      have hn : cacheName env tex options =
          cmdDigest tex (iterCmdParts env.binCmd options) ++ ".html" := rfl
      rw [hn, cmdDigest_eq_sha256hex, pyReplaceHtmlTex_digestName]
      exact texName_ne_htmlName _
    rw [tex2html_miss_ok env st tex options r out hNoFail hMiss hIn hRun hZero hWrite]
    show dlookup _ (st.tmpDir.filter _ ++
      [(cacheName env tex options, Entry.file out st.now)]) = _
    rw [dlookup_append_of_none _ (dlookup_filter_none hIn)]
    simp [dlookup]
    exact hne
  · intro env st tex options r hNoFail hMiss hIn hRun hPos hNoWrite
    rw [tex2html_miss_posExit env st tex options r hNoFail hMiss hIn hRun hPos hNoWrite]
    show dlookup _ (st.tmpDir.filter _ ++
      [(pyReplaceHtmlTex (cacheName env tex options), Entry.file tex st.now)]) = _
    rw [dlookup_append_of_none _ (dlookup_filter_none hIn)]
    simp [dlookup]

theorem c8_input_file_cleanup_witness :
    dlookup (pyReplaceHtmlTex (cacheName ⟨["katex"], fun _ => some ⟨0, "", "", some "<p>y</p>"⟩,
        fun _ => false⟩ "y^2" []))
      (tex2html ⟨["katex"], fun _ => some ⟨0, "", "", some "<p>y</p>"⟩, fun _ => false⟩
        ⟨[], 0⟩ "y^2" []).2.1.tmpDir = none ∧
    dlookup (pyReplaceHtmlTex (cacheName ⟨["katex"], fun _ => some ⟨2, "", "boom", none⟩,
        fun _ => false⟩ "y^2" []))
      (tex2html ⟨["katex"], fun _ => some ⟨2, "", "boom", none⟩, fun _ => false⟩
        ⟨[], 0⟩ "y^2" []).2.1.tmpDir = some (Entry.file "y^2" 0) :=
  ⟨c8_input_file_cleanup.1 ⟨["katex"], fun _ => some ⟨0, "", "", some "<p>y</p>"⟩,
      fun _ => false⟩ ⟨[], 0⟩ "y^2" [] ⟨0, "", "", some "<p>y</p>"⟩ "<p>y</p>"
      (fun _ => rfl) rfl rfl rfl rfl rfl,
   c8_input_file_cleanup.2 ⟨["katex"], fun _ => some ⟨2, "", "boom", none⟩,
      fun _ => false⟩ ⟨[], 0⟩ "y^2" [] ⟨2, "", "boom", none⟩
      (fun _ => rfl) rfl rfl rfl (by decide) rfl⟩

/-- Claim C9 counterexample: a failing unlink during the janitor sweep makes
the whole render call raise — the sweep is not best-effort; nothing catches
the OSError raised in the finally block. -/
theorem c9_counterexample :
    (tex2html ⟨["katex"], fun _ => some ⟨0, "", "", some "<p></p>"⟩,
        fun n => n == "old.html"⟩
      ⟨[("old.html", Entry.file "x" 0)], 100000⟩ "x^2" []).1 =
      Except.error (Err.osErr "unlink failed") := by
  rfl

/-- Claim C9 (amended): a failure to delete a stale file during the janitor
sweep propagates out of the enclosing render call — the sweep runs in the
finally block with no exception handler, so the render call raises that
error instead of its computed result. -/
theorem c9_janitor_error_propagates (env : Env) (st : WState) (tex : String)
    (options : List (String × ArgValue)) (er : Err) (st2 : WState)
    (h : cleanupTmpDir env (tex2htmlBody env st tex options).2.1 = (st2, some er)) :
    (tex2html env st tex options).1 = Except.error er := by
  rw [tex2html_janitor_error env st tex options er st2 h]

theorem c9_janitor_error_propagates_witness :
    (tex2html ⟨["katex"], fun _ => none, fun n => n == "stale.tex"⟩
      ⟨[("stale.tex", Entry.file "z" 0),
        (cacheName ⟨["katex"], fun _ => none, fun n => n == "stale.tex"⟩ "y" [],
         Entry.file "ok" 50)], 100000⟩ "y" []).1 =
      Except.error (Err.osErr "unlink failed") :=
  c9_janitor_error_propagates ⟨["katex"], fun _ => none, fun n => n == "stale.tex"⟩
    ⟨[("stale.tex", Entry.file "z" 0),
      (cacheName ⟨["katex"], fun _ => none, fun n => n == "stale.tex"⟩ "y" [],
       Entry.file "ok" 50)], 100000⟩ "y" [] (Err.osErr "unlink failed")
    (cleanupTmpDir ⟨["katex"], fun _ => none, fun n => n == "stale.tex"⟩
      (tex2htmlBody ⟨["katex"], fun _ => none, fun n => n == "stale.tex"⟩
        ⟨[("stale.tex", Entry.file "z" 0),
          (cacheName ⟨["katex"], fun _ => none, fun n => n == "stale.tex"⟩ "y" [],
           Entry.file "ok" 50)], 100000⟩ "y" []).2.1).1
    (by rfl)

/-! ## Claim C2: the digest -/

theorem optLoop_append (l1 l2 : List (String × ArgValue)) :
    optLoop (l1 ++ l2) = optLoop l1 ++ optLoop l2 := by
  induction l1 with
  | nil => rfl
  | cons p r ih =>
    rcases p with ⟨nm, v⟩
    rw [List.cons_append, optLoop, optLoop, ih, List.append_assoc]

theorem optLoop_cons_nonbool (nm : String) (v : ArgValue)
    (rest : List (String × ArgValue)) (hv : ∀ b, v ≠ ArgValue.bool b) :
    optLoop ((nm, v) :: rest) =
      (if leadsWithDashDash nm then nm else "--" ++ nm) ::
        strArgValue v :: optLoop rest := by
  rw [optLoop, if_neg (hv true), if_neg (hv false)]
  rfl

/-- Claim C2 counterexample: the digest does NOT change for every change of
an option value.  The int 1 and the string "1" are different option values
with the same argv rendering, and boolean true and the empty string yield
different argv token lists whose concatenated bytes coincide; both pairs
produce the identical digest. -/
theorem c2_counterexample :
    (cmdDigest "x" (iterCmdParts ["katex"] [("a", ArgValue.int 1)]) =
       cmdDigest "x" (iterCmdParts ["katex"] [("a", ArgValue.str "1")]) ∧
     ArgValue.int 1 ≠ ArgValue.str "1") ∧
    (cmdDigest "x" (iterCmdParts ["katex"] [("a", ArgValue.bool true)]) =
       cmdDigest "x" (iterCmdParts ["katex"] [("a", ArgValue.str "")]) ∧
     ArgValue.bool true ≠ ArgValue.str "") := by
  refine ⟨⟨?_, by decide⟩, ⟨?_, by decide⟩⟩
  · rfl
  · rw [cmdDigest_eq_sha256hex, cmdDigest_eq_sha256hex]
    rfl

/-- Claim C2 (amended): the digest is the hex SHA-256 of the UTF-8 bytes of
the text followed by the UTF-8 bytes of every argv token in order; identical
text and token sequences give the identical digest; changing a single
character of the text changes the hashed byte string, and so does changing
a non-boolean option value to one with a different string form (values with
equal string forms, such as int 1 and "1", or encodings whose concatenation
coincides, such as true and "", leave the digest unchanged). -/
theorem c2_digest (tex : String) (parts : List String) :
    cmdDigest tex parts = sha256hex (hashInput tex parts) ∧
    (∀ (u w : List Char) (c c2 : Char) (ps : List String), c ≠ c2 →
      hashInput (String.mk (u ++ c :: w)) ps ≠
        hashInput (String.mk (u ++ c2 :: w)) ps) ∧
    (∀ (binCmd : List String) (pre suf : List (String × ArgValue))
        (nm : String) (v v2 : ArgValue),
      (∀ b, v ≠ ArgValue.bool b) → (∀ b, v2 ≠ ArgValue.bool b) →
      strArgValue v ≠ strArgValue v2 →
      hashInput tex (iterCmdParts binCmd (pre ++ (nm, v) :: suf)) ≠
        hashInput tex (iterCmdParts binCmd (pre ++ (nm, v2) :: suf))) := by
  refine ⟨cmdDigest_eq_sha256hex tex parts, ?_, ?_⟩
  · intro u w c c2 ps hne heq
    unfold hashInput at heq
    have h1 := List.append_cancel_right heq
    have h2 := utf8Str_inj h1
    have h3 : u ++ c :: w = u ++ c2 :: w := congrArg String.data h2
    have h4 := List.append_cancel_left h3
    injection h4 with hh _
    exact hne hh
  · intro binCmd pre suf nm v v2 hv hv2 hs heq
    have hE : ((pre ++ (nm, v) :: suf).isEmpty) = false := by simp
    have hE2 : ((pre ++ (nm, v2) :: suf).isEmpty) = false := by simp
    unfold hashInput iterCmdParts at heq
    rw [hE, hE2] at heq
    simp only [Bool.false_eq_true, if_false] at heq
    rw [optLoop_append, optLoop_append, optLoop_cons_nonbool nm v suf hv,
      optLoop_cons_nonbool nm v2 suf hv2] at heq
    simp only [List.map_append, List.map_cons, List.flatten_append,
      List.flatten_cons, List.append_assoc] at heq
    have e1 := List.append_cancel_left heq
    have e2 := List.append_cancel_left e1
    have e3 := List.append_cancel_left e2
    have e4 := List.append_cancel_left e3
    have e5 := List.append_cancel_right e4
    exact hs (utf8Str_inj e5)

theorem c2_digest_witness :
    cmdDigest "x" ["katex"] = sha256hex (hashInput "x" ["katex"]) ∧
    hashInput (String.mk (['a'] ++ 'b' :: [])) ["katex"] ≠
      hashInput (String.mk (['a'] ++ 'c' :: [])) ["katex"] ∧
    hashInput "x" (iterCmdParts ["katex"] ([] ++ ("a", ArgValue.int 2) :: [])) ≠
      hashInput "x" (iterCmdParts ["katex"] ([] ++ ("a", ArgValue.int 3) :: [])) :=
  ⟨(c2_digest "x" ["katex"]).1,
   (c2_digest "x" ["katex"]).2.1 ['a'] [] 'b' 'c' ["katex"] (by decide),
   (c2_digest "x" ["katex"]).2.2 ["katex"] [] [] "a" (ArgValue.int 2) (ArgValue.int 3)
     (by decide) (by decide) (by decide)⟩

/-- Claim C10: the cache digest is computed over the argument vector before
the --input and --output path arguments are appended: the cache file name is
the digest of the text and the prefix-plus-option tokens alone, it is the
same under any two worlds agreeing on the resolved binary prefix (whatever
their renderer or filesystem oracles do), and on a cache hit the whole call
is insensitive to the renderer oracle. -/
theorem c10_cache_key_independent :
    (∀ (env : Env) (tex : String) (options : List (String × ArgValue)),
      cacheName env tex options =
        cmdDigest tex (iterCmdParts env.binCmd options) ++ ".html") ∧
    (∀ (env env2 : Env) (tex : String) (options : List (String × ArgValue)),
      env.binCmd = env2.binCmd →
      cacheName env tex options = cacheName env2 tex options) ∧
    (∀ (env env2 : Env) (st : WState) (tex : String)
        (options : List (String × ArgValue)) (c : String) (t : Int),
      env.binCmd = env2.binCmd →
      (∀ n, env.unlinkFails n = false) → (∀ n, env2.unlinkFails n = false) →
      dlookup (cacheName env tex options) st.tmpDir = some (Entry.file c t) →
      tex2html env st tex options = tex2html env2 st tex options) := by
  refine ⟨fun env tex options => rfl, ?_, ?_⟩
  · intro env env2 tex options hb
    unfold cacheName iterCmdParts
    rw [hb]
  · intro env env2 st tex options c t hb hF1 hF2 hHit
    have hcn : cacheName env tex options = cacheName env2 tex options := by
      unfold cacheName iterCmdParts
      rw [hb]
    rw [tex2html_hit env st tex options c t hF1 hHit,
        tex2html_hit env2 st tex options c t hF2 (by rw [← hcn]; exact hHit), hcn]

theorem c10_cache_key_independent_witness :
    cacheName ⟨["katex"], fun _ => none, fun _ => false⟩ "x^2" [] =
      cmdDigest "x^2" (iterCmdParts ["katex"] []) ++ ".html" ∧
    cacheName ⟨["katex"], fun _ => none, fun _ => false⟩ "x^2" [] =
      cacheName ⟨["katex"], fun _ => some ⟨0, "", "", none⟩, fun _ => true⟩ "x^2" [] ∧
    tex2html ⟨["katex"], fun _ => none, fun _ => false⟩
        ⟨[(cacheName ⟨["katex"], fun _ => none, fun _ => false⟩ "x^2" [],
           Entry.file "r" 1)], 10⟩ "x^2" [] =
      tex2html ⟨["katex"], fun _ => some ⟨1, "", "zz", none⟩, fun _ => false⟩
        ⟨[(cacheName ⟨["katex"], fun _ => none, fun _ => false⟩ "x^2" [],
           Entry.file "r" 1)], 10⟩ "x^2" [] :=
  ⟨c10_cache_key_independent.1 ⟨["katex"], fun _ => none, fun _ => false⟩ "x^2" [],
   c10_cache_key_independent.2.1 ⟨["katex"], fun _ => none, fun _ => false⟩
     ⟨["katex"], fun _ => some ⟨0, "", "", none⟩, fun _ => true⟩ "x^2" [] rfl,
   c10_cache_key_independent.2.2 ⟨["katex"], fun _ => none, fun _ => false⟩
     ⟨["katex"], fun _ => some ⟨1, "", "zz", none⟩, fun _ => false⟩
     ⟨[(cacheName ⟨["katex"], fun _ => none, fun _ => false⟩ "x^2" [],
        Entry.file "r" 1)], 10⟩ "x^2" [] "r" 1 rfl (fun _ => rfl) (fun _ => rfl) rfl⟩
